import Mathlib

/-!
Shallow embedding of the grocery REST API defined in src/app.py.

The program is a single Litestar HTTP process exposing POST /sales.  A
request body is validated against the pydantic model ItemSearchRequest
(fields: optional category drawn from the Category string enumeration,
optional free-text description, boolean on_sale defaulting to true).  The
handler builds one SQL string from a fixed base SELECT by conditionally
appending predicate clauses joined with AND, appends a fixed descending
sort on discount_percent and LIMIT 100, executes it against Postgres with
the description bound as the single query parameter, and maps the rows
one-to-one onto the response model Item.

The embedding keeps the source names.  Query execution (which happens
inside Postgres, outside this repository) is modelled relationally on a
list of rows: WHERE is a filter, ORDER BY discount_percent DESC is a
sorted permutation whose key places SQL NULL first (the Postgres default
for DESC is NULLS FIRST), LIMIT is a take.  The full-text operator
to_tsvector(..) @@ plainto_tsquery(..) is abstracted as an arbitrary
boolean match function passed as a parameter, since its semantics live in
Postgres, not in this code.
-/

namespace GroceryRestApi

/-- Embeds the Category enumeration of src/app.py lines 48-91: the
admissible values of the category filter (43 members). -/
inductive Category where
  | Adult_Beverage
  | Apparel
  | Automotive
  | Baby
  | Bakery
  | Baking_Goods
  | Beauty
  | Bed_Bath
  | Beverages
  | Breakfast
  | Candy
  | Canned_Packaged
  | Cleaning_Products
  | Condiment_Sauces
  | Dairy
  | Deli
  | Easter
  | Electronics
  | Entertainment
  | Floral
  | Frozen
  | Garden_Patio
  | Gift_Cards
  | Hardware
  | Health
  | Holiday_Seasonal_Goods
  | Home_Decor
  | International
  | Kitchen
  | Meat_Seafood
  | Natural_Organic
  | Office_School_Crafts
  | Other
  | Party
  | Pasta_Sauces_Grain
  | Personal_Care
  | Pet_Care
  | Produce
  | Snacks
  | Sporting_Goods
  | Tobacco
  | Travel_Luggage
  | Valentines_Day
deriving DecidableEq

/-- String value of each enumeration member, exactly the strings of
src/app.py lines 49-91 (the enum is a str-Enum, so each member IS its
string value). -/
def Category.value : Category → String
  | .Adult_Beverage => "Adult Beverage"
  | .Apparel => "Apparel"
  | .Automotive => "Automotive"
  | .Baby => "Baby"
  | .Bakery => "Bakery"
  | .Baking_Goods => "Baking Goods"
  | .Beauty => "Beauty"
  | .Bed_Bath => "Bed & Bath"
  | .Beverages => "Beverages"
  | .Breakfast => "Breakfast"
  | .Candy => "Candy"
  | .Canned_Packaged => "Canned & Packaged"
  | .Cleaning_Products => "Cleaning Products"
  | .Condiment_Sauces => "Condiment & Sauces"
  | .Dairy => "Dairy"
  | .Deli => "Deli"
  | .Easter => "Easter"
  | .Electronics => "Electronics"
  | .Entertainment => "Entertainment"
  | .Floral => "Floral"
  | .Frozen => "Frozen"
  | .Garden_Patio => "Garden & Patio"
  | .Gift_Cards => "Gift Cards"
  | .Hardware => "Hardware"
  | .Health => "Health"
  | .Holiday_Seasonal_Goods => "Holiday & Seasonal Goods"
  | .Home_Decor => "Home Decor"
  | .International => "International"
  | .Kitchen => "Kitchen"
  | .Meat_Seafood => "Meat & Seafood"
  | .Natural_Organic => "Natural & Organic"
  | .Office_School_Crafts => "Office, School, & Crafts"
  | .Other => "Other"
  | .Party => "Party"
  | .Pasta_Sauces_Grain => "Pasta, Sauces, Grain"
  | .Personal_Care => "Personal Care"
  | .Pet_Care => "Pet Care"
  | .Produce => "Produce"
  | .Snacks => "Snacks"
  | .Sporting_Goods => "Sporting Goods"
  | .Tobacco => "Tobacco"
  | .Travel_Luggage => "Travel & Luggage"
  | .Valentines_Day => "Valentine\x27s Day"

/-- All members of the enumeration, in source order. -/
def Category.all : List Category :=
  [.Adult_Beverage, .Apparel, .Automotive, .Baby, .Bakery, .Baking_Goods,
   .Beauty, .Bed_Bath, .Beverages, .Breakfast, .Candy, .Canned_Packaged,
   .Cleaning_Products, .Condiment_Sauces, .Dairy, .Deli, .Easter,
   .Electronics, .Entertainment, .Floral, .Frozen, .Garden_Patio,
   .Gift_Cards, .Hardware, .Health, .Holiday_Seasonal_Goods, .Home_Decor,
   .International, .Kitchen, .Meat_Seafood, .Natural_Organic,
   .Office_School_Crafts, .Other, .Party, .Pasta_Sauces_Grain,
   .Personal_Care, .Pet_Care, .Produce, .Snacks, .Sporting_Goods,
   .Tobacco, .Travel_Luggage, .Valentines_Day]

/-- Lookup of a raw string among the enumeration values: this is what
pydantic does to coerce a JSON string into the str-Enum Category when
validating ItemSearchRequest.category. -/
def Category.fromString? (s : String) : Option Category :=
  Category.all.find? (fun c => c.value == s)

/-- Embeds the validated pydantic model ItemSearchRequest of src/app.py
lines 94-110.  The model has exactly these three fields; in particular it
has NO stock-level field. -/
structure ItemSearchRequest where
  category : Option Category
  description : Option String
  on_sale : Bool
deriving DecidableEq

/-- Embeds the response row model Item of src/app.py lines 113-141.  The
handler maps each fetched row one-to-one onto this model (floats are
carried as rationals; a SQL NULL is none), so the same structure serves as
the row type of the backing items_view. -/
structure Item where
  category : String
  description : String
  promo_price : Option ℚ
  regular_price : Option ℚ
  stock_level : Option String
  upc : String
  discount_percent : Option ℚ
deriving DecidableEq

/-- Embeds ItemSearchResponse of src/app.py lines 144-154. -/
structure ItemSearchResponse where
  items : List Item
deriving DecidableEq

/-- Raw JSON request body as the wire sends it, before pydantic
validation.  The fields are the ones the claims mention; stock_level is
present here because a client may send it, even though the
ItemSearchRequest model of src/app.py declares no such field. -/
structure RawRequest where
  category : Option String
  description : Option String
  on_sale : Option Bool
  stock_level : Option String
deriving DecidableEq

/-- Generic value error raised by pydantic when a string is not a member
of a str-Enum field (spec section 7: invalid enumerated filter values
raise a generic value error). -/
def enumErrorMsg : String := "value is not a valid enumeration member"

/-- Embeds pydantic validation of a raw body against ItemSearchRequest
(src/app.py lines 94-110): category, when present, must be one of the 43
enumeration values, else a value error; on_sale defaults to true when the
field is omitted; unknown fields such as stock_level are IGNORED, which is
the default pydantic behavior for extra fields. -/
def validate (raw : RawRequest) : Except String ItemSearchRequest :=
  match raw.category with
  | none => .ok (ItemSearchRequest.mk none raw.description (raw.on_sale.getD true))
  | some s =>
    match Category.fromString? s with
    | none => .error enumErrorMsg
    | some c => .ok (ItemSearchRequest.mk (some c) raw.description (raw.on_sale.getD true))

/-- Base SELECT of src/app.py line 197. -/
def baseQuery : String :=
  "SELECT category, description, promo_price, regular_price, stock_level, upc, discount_percent FROM public.items_view"

/-- Sale predicate clause appended when on_sale holds (line 200). -/
def promoCond : String := "promo_price > 0"

/-- Category equality clause of lines 203-205: the enumeration value is
interpolated directly into the SQL text. -/
def categoryCond (c : Category) : String :=
  "category = \x27" ++ c.value ++ "\x27"

/-- Full-text description clause of line 209: the search term itself is
NOT interpolated; it is referenced as the bound parameter :description. -/
def tsCond : String :=
  "to_tsvector(\x27english\x27, description) @@ plainto_tsquery(\x27english\x27, :description)"

/-- Fixed sort and row cap appended at line 217. -/
def orderLimitClause : String := " ORDER BY discount_percent DESC LIMIT 100"

/-- Python truthiness of the optional description field: None and the
empty string are falsy, any other string truthy.  This is the test the
source performs at line 208 (if data.description:). -/
def descTruthy : Option String → Bool
  | none => false
  | some d => !d.isEmpty

/-- Conditions list built by src/app.py lines 198-211, in source append
order: sale clause, then category clause, then description clause.  The
category test (if data.category:) is presence, since every enumeration
value is a non-empty string; the description test is Python truthiness, so
an empty-string description adds no clause. -/
def conditions (req : ItemSearchRequest) : List String :=
  (if req.on_sale then [promoCond] else [])
  ++ (match req.category with
      | none => []
      | some c => [categoryCond c])
  ++ (if descTruthy req.description then [tsCond] else [])

/-- Full SQL string built by src/app.py lines 197-217: the base SELECT,
then WHERE plus the AND-join of the conditions when that join is a
non-empty string (Python truthiness of the where_clause variable at line
214, here inlined), then the fixed sort and cap. -/
def buildQuery (req : ItemSearchRequest) : String :=
  (if (String.intercalate " AND " (conditions req)).isEmpty then baseQuery
   else baseQuery ++ " WHERE " ++ String.intercalate " AND " (conditions req))
    ++ orderLimitClause

/-- Parameter dictionary passed to session.execute at lines 219-221: the
description is always supplied as the bound parameter :description. -/
def queryParams (req : ItemSearchRequest) : Option String := req.description

/-- SQL semantics of promoCond on one row: promo_price > 0 is satisfied
only when the column is non-NULL and positive (a NULL comparison is not
true). -/
def promoPos (i : Item) : Bool :=
  match i.promo_price with
  | none => false
  | some p => decide (0 < p)

/-- SQL semantics of the WHERE clause built by conditions, evaluated on
one row.  The full-text operator is the abstract match function tsM. -/
def rowMatches (tsM : String → String → Bool) (req : ItemSearchRequest) (i : Item) : Bool :=
  (!req.on_sale || promoPos i)
  && (match req.category with
      | none => true
      | some c => i.category == c.value)
  && (match req.description with
      | none => true
      | some d => if d.isEmpty then true else tsM i.description d)

/-- Sort key of ORDER BY discount_percent DESC: Postgres places NULL
first in a descending sort (NULLS FIRST is the DESC default), so NULL is
the greatest key. -/
def descKey (i : Item) : WithTop ℚ :=
  match i.discount_percent with
  | none => (⊤ : WithTop ℚ)
  | some q => (q : WithTop ℚ)

/-- Row order of ORDER BY discount_percent DESC: earlier rows have the
greater (or equal) key. -/
def rowGE (a b : Item) : Prop := descKey b ≤ descKey a

instance : DecidableRel rowGE :=
  fun a b => inferInstanceAs (Decidable (descKey b ≤ descKey a))

instance : IsTotal Item rowGE := ⟨fun a b => le_total (descKey b) (descKey a)⟩

instance : IsTrans Item rowGE := ⟨fun _ _ _ h1 h2 => le_trans h2 h1⟩

/-- Relational semantics of executing the built query on the rows of
public.items_view (src/app.py lines 219-222 as run by Postgres): filter by
the WHERE conditions, sort descending by discount_percent with NULL first,
cap at 100 rows. -/
def execQuery (tsM : String → String → Bool) (req : ItemSearchRequest)
    (db : List Item) : List Item :=
  (((db.filter (rowMatches tsM req)).insertionSort rowGE)).take 100

/-- End-to-end model of the POST /sales handler (src/app.py lines
179-243): pydantic validation of the body, then query construction and
execution, then the one-to-one mapping of rows into ItemSearchResponse.
A validation failure surfaces as the error before any query runs. -/
def search (tsM : String → String → Bool) (raw : RawRequest)
    (db : List Item) : Except String ItemSearchResponse :=
  match validate raw with
  | .error e => .error e
  | .ok req => .ok (ItemSearchResponse.mk (execQuery tsM req db))

/-- Clause list as the unamended query-shape claim words it: the
description clause is present exactly when the description field is SET
(non-none), with no regard to emptiness.  Kept separate from conditions,
which follows the source and its Python truthiness test. -/
def claimedConditions (req : ItemSearchRequest) : List String :=
  (if req.on_sale then [promoCond] else [])
  ++ (match req.category with
      | none => []
      | some c => [categoryCond c])
  ++ (match req.description with
      | none => []
      | some _ => [tsCond])

/-- Query shape as the unamended claim words it: base SELECT, then WHERE
plus the AND-join of claimedConditions when any filter is set, then the
fixed sort and cap. -/
def specQueryClaimed (req : ItemSearchRequest) : String :=
  (if claimedConditions req = [] then baseQuery
   else baseQuery ++ " WHERE " ++ String.intercalate " AND " (claimedConditions req))
    ++ orderLimitClause

/-- Query shape of the amended claim: identical to specQueryClaimed
except that the description clause requires a non-empty description, and
the WHERE keyword appears exactly when the clause LIST is non-empty. -/
def specQuery (req : ItemSearchRequest) : String :=
  (if conditions req = [] then baseQuery
   else baseQuery ++ " WHERE " ++ String.intercalate " AND " (conditions req))
    ++ orderLimitClause

/-- Concrete sale row used to instantiate theorems: on sale at 1 with a
50 percent discount. -/
def sampleItem : Item :=
  Item.mk "Dairy" "whole milk" (some 1) (some 2) (some "HIGH") "0001" (some 50)

/-- Concrete row that is not on sale (NULL promo_price). -/
def sampleMiss : Item :=
  Item.mk "Bakery" "rye bread" none (some 3) none "0002" none

/-- Concrete full-text match function used to instantiate theorems (the
theorems hold for every match function). -/
def tsAlways : String → String → Bool := fun _ _ => true

/-- Concrete raw body whose category string is not an enumeration value. -/
def sampleBadRaw : RawRequest := RawRequest.mk (some "Grocery") none none none

/-- Every row of a query result is a row of the store that satisfies the
WHERE conditions: LIMIT is a sublist of the sort, the sort is a
permutation of the filter. -/
lemma mem_of_mem_execQuery {tsM : String → String → Bool}
    {req : ItemSearchRequest} {db : List Item} {i : Item}
    (h : i ∈ execQuery tsM req db) :
    i ∈ db ∧ rowMatches tsM req i = true := by
  unfold execQuery at h
  exact List.mem_filter.mp
    ((List.perm_insertionSort rowGE _).mem_iff.mp
      (List.Sublist.mem h (List.take_sublist _ _)))

/-- A string with a non-empty left part is non-empty. -/
lemma ne_empty_append {a : String} (b : String) (ha : a ≠ "") :
    a ++ b ≠ "" := by
  intro he
  have hd : a.data ++ b.data = [] := by rw [← String.data_append, he]
  apply ha
  cases a with
  | mk l =>
    have hl : l = [] := (List.append_eq_nil.mp hd).1
    rw [hl]

/-- No enumeration value is the empty string. -/
lemma category_value_ne_empty (c : Category) : c.value ≠ "" := by
  cases c <;> decide

/-- The interpolated category clause is never the empty string. -/
lemma categoryCond_ne_empty (c : Category) : categoryCond c ≠ "" :=
  ne_empty_append "\x27" (ne_empty_append c.value (by decide))

/-- The sale clause differs from every category clause. -/
lemma promoCond_ne_categoryCond (c : Category) : promoCond ≠ categoryCond c := by
  cases c <;> decide

/-- The sale clause differs from the full-text clause. -/
lemma promoCond_ne_tsCond : promoCond ≠ tsCond := by decide

/-- Folding the AND-join over further clauses keeps a non-empty
accumulator non-empty. -/
lemma intercalate_go_ne_empty (s : String) (l : List String) :
    ∀ acc : String, acc ≠ "" → String.intercalate.go acc s l ≠ "" := by
  induction l with
  | nil => intro acc ha; exact ha
  | cons x xs ih =>
    intro acc ha
    exact ih (acc ++ s ++ x) (ne_empty_append x (ne_empty_append s ha))

/-- The AND-join of a clause list with a non-empty head is non-empty. -/
lemma intercalate_cons_ne_empty (a : String) (l : List String) (ha : a ≠ "") :
    String.intercalate " AND " (a :: l) ≠ "" :=
  intercalate_go_ne_empty " AND " l a ha

/-- Every clause the source ever appends is a non-empty string. -/
lemma conditions_mem_ne_empty (req : ItemSearchRequest) :
    ∀ s ∈ conditions req, s ≠ "" := by
  intro s hs
  unfold conditions at hs
  rcases List.mem_append.mp hs with h | h
  · rcases List.mem_append.mp h with h1 | h1
    · simp at h1
      rw [h1.2]; decide
    · rcases hc : req.category with _ | c <;> rw [hc] at h1 <;> simp at h1
      rw [h1]; exact categoryCond_ne_empty c
  · simp at h
    rw [h.2]; decide

/-- C1: for every search request in which only the sale flag is set
(on_sale true, no category and no description filter), every item in the
response has a promotional price that is set and strictly positive. -/
theorem C1_sale_only_items_have_positive_promo
    (tsM : String → String → Bool) (db : List Item) (req : ItemSearchRequest)
    (h1 : req.on_sale = true) (h2 : req.category = none)
    (h3 : req.description = none) :
    ∀ i ∈ execQuery tsM req db, ∃ p, i.promo_price = some p ∧ 0 < p := by
  intro i hi
  obtain ⟨-, hm⟩ := mem_of_mem_execQuery hi
  unfold rowMatches at hm
  rw [h1, h2, h3] at hm
  simp at hm
  unfold promoPos at hm
  cases hp : i.promo_price with
  | none => rw [hp] at hm; exact Bool.noConfusion hm
  | some p => rw [hp] at hm; exact ⟨p, rfl, of_decide_eq_true hm⟩

/-- Closed instance of the C1 theorem on a one-row store containing a
sale item. -/
theorem C1_witness : ∃ p, sampleItem.promo_price = some p ∧ 0 < p :=
  C1_sale_only_items_have_positive_promo tsAlways [sampleItem]
    (ItemSearchRequest.mk none none true) rfl rfl rfl sampleItem (by decide)

/-- C2: for every search request, the response sequence is non-increasing
in discount percentage: whenever a row with discount x precedes a row
with discount y, y is at most x.  Rows whose discount_percent is NULL
carry no percentage and are placed first by the descending Postgres sort
(NULLS FIRST is the DESC default). -/
theorem C2_results_sorted_desc_discount
    (tsM : String → String → Bool) (req : ItemSearchRequest) (db : List Item) :
    (execQuery tsM req db).Pairwise
      (fun a b => ∀ x y, a.discount_percent = some x →
        b.discount_percent = some y → y ≤ x) := by
  have hs : ((db.filter (rowMatches tsM req)).insertionSort rowGE).Sorted rowGE :=
    List.sorted_insertionSort rowGE _
  have ht : (execQuery tsM req db).Pairwise rowGE := by
    unfold execQuery
    exact List.Pairwise.sublist (List.take_sublist _ _) hs
  refine ht.imp ?_
  intro a b hab x y hx hy
  unfold rowGE at hab
  have ha : descKey a = (x : WithTop ℚ) := by unfold descKey; rw [hx]
  have hb : descKey b = (y : WithTop ℚ) := by unfold descKey; rw [hy]
  rw [ha, hb] at hab
  exact WithTop.coe_le_coe.mp hab

/-- Closed instance of the C2 theorem on a concrete two-row store. -/
theorem C2_witness :
    (execQuery tsAlways (ItemSearchRequest.mk none none true)
        [sampleItem, sampleMiss]).Pairwise
      (fun a b => ∀ x y, a.discount_percent = some x →
        b.discount_percent = some y → y ≤ x) :=
  C2_results_sorted_desc_discount tsAlways (ItemSearchRequest.mk none none true)
    [sampleItem, sampleMiss]

/-- C3: for every search request with the category filter set, every item
in the response carries exactly that category (the enumeration value the
source interpolates into the equality clause). -/
theorem C3_category_filter_restricts
    (tsM : String → String → Bool) (db : List Item) (req : ItemSearchRequest)
    (c : Category) (h2 : req.category = some c) :
    ∀ i ∈ execQuery tsM req db, i.category = c.value := by
  intro i hi
  obtain ⟨-, hm⟩ := mem_of_mem_execQuery hi
  unfold rowMatches at hm
  simp only [Bool.and_eq_true] at hm
  obtain ⟨⟨-, h5⟩, -⟩ := hm
  rw [h2] at h5
  exact eq_of_beq h5

/-- Closed instance of the C3 theorem: filtering by Dairy on a one-row
store returns a Dairy row. -/
theorem C3_witness : sampleItem.category = Category.Dairy.value :=
  C3_category_filter_restricts tsAlways [sampleItem]
    (ItemSearchRequest.mk (some Category.Dairy) none true) Category.Dairy rfl
    sampleItem (by decide)

/-- C7: for every search request the response holds at most 100 items,
the LIMIT of src/app.py line 217. -/
theorem C7_row_cap_100
    (tsM : String → String → Bool) (req : ItemSearchRequest) (db : List Item) :
    (execQuery tsM req db).length ≤ 100 := by
  unfold execQuery
  rw [List.length_take]
  exact inf_le_left

/-- C8: a request whose query matches no rows of the backing store gets a
successful response whose items field is the empty sequence, not an
error. -/
theorem C8_empty_result_ok
    (tsM : String → String → Bool) (raw : RawRequest) (req : ItemSearchRequest)
    (db : List Item) (hv : validate raw = .ok req)
    (hn : ∀ r ∈ db, rowMatches tsM req r = false) :
    search tsM raw db = .ok (ItemSearchResponse.mk []) := by
  have hf : db.filter (rowMatches tsM req) = [] :=
    List.filter_eq_nil_iff.mpr (fun a ha => by simp [hn a ha])
  simp only [search, hv, execQuery]
  rw [hf]
  rfl

/-- Closed instance of the C8 theorem: a store whose only row is not on
sale yields an empty, successful response for the default request. -/
theorem C8_witness :
    search tsAlways (RawRequest.mk none none none none) [sampleMiss]
      = .ok (ItemSearchResponse.mk []) :=
  C8_empty_result_ok tsAlways (RawRequest.mk none none none none)
    (ItemSearchRequest.mk none none true) [sampleMiss] rfl (by decide)

/-- C5: a request body whose category string is not a member of the
enumeration fails validation with the generic value error, and the
outcome of the endpoint is that same error for EVERY store: no query is
executed against the backing store. -/
theorem C5_invalid_category_value_error
    (raw : RawRequest) (s : String) (hc : raw.category = some s)
    (hf : Category.fromString? s = none) :
    validate raw = .error enumErrorMsg ∧
      ∀ (tsM : String → String → Bool) (db : List Item),
        search tsM raw db = .error enumErrorMsg := by
  have hv : validate raw = .error enumErrorMsg := by
    simp only [validate, hc, hf]
  exact ⟨hv, fun tsM db => by simp only [search, hv]⟩

/-- Closed instance of the C5 theorem at the non-member category string
Grocery. -/
theorem C5_witness :
    validate sampleBadRaw = .error enumErrorMsg ∧
      search tsAlways sampleBadRaw [sampleItem] = .error enumErrorMsg :=
  ⟨(C5_invalid_category_value_error sampleBadRaw "Grocery" rfl rfl).1,
   (C5_invalid_category_value_error sampleBadRaw "Grocery" rfl rfl).2
     tsAlways [sampleItem]⟩

/-- C4 counterexample: the claim says a stock-level filter outside the
enumerated set of stock levels is rejected, but ItemSearchRequest of
src/app.py declares no stock-level field at all, and pydantic ignores
unknown fields by default: the body carrying stock_level BOGUS (a value
outside any stock-level enumeration) validates successfully into the
default request instead of being rejected. -/
theorem C4_counterexample_stock_level_ignored :
    validate (RawRequest.mk none none none (some "BOGUS"))
      = .ok (ItemSearchRequest.mk none none true) := rfl

/-- C4 amended: the search request accepts no stock-level filter; a
stock_level field in the body is ignored, and validation gives the very
result it gives when the field is absent, whatever its value. -/
theorem C4_amended_stock_level_ignored
    (c : Option String) (d : Option String) (o : Option Bool)
    (v : Option String) :
    validate (RawRequest.mk c d o v) = validate (RawRequest.mk c d o none) := rfl

/-- C9: omitting on_sale defaults it to true, so validation gives the
very request an explicit on_sale true gives; and the
positive-promotional-price clause is in the built conditions exactly when
the validated on_sale is true, so only an explicit false removes it. -/
theorem C9_on_sale_default_true :
    (∀ raw : RawRequest, raw.on_sale = none →
      validate raw
        = validate (RawRequest.mk raw.category raw.description (some true)
            raw.stock_level))
    ∧ (∀ req : ItemSearchRequest,
        promoCond ∈ conditions req ↔ req.on_sale = true) := by
  constructor
  · intro raw h
    obtain ⟨c, d, o, v⟩ := raw
    simp only at h
    subst h
    rfl
  · intro req
    obtain ⟨cat, desc, sale⟩ := req
    simp only [conditions]
    cases sale with
    | true =>
      simp
    | false =>
      cases cat with
      | none =>
        cases hd : descTruthy desc <;>
          simp [hd, promoCond_ne_tsCond]
      | some c =>
        cases hd : descTruthy desc <;>
          simp [hd, promoCond_ne_categoryCond c, promoCond_ne_tsCond]

/-- Closed instance of the C9 theorem: the empty body validates as the
body with explicit on_sale true, and the default request carries the sale
clause. -/
theorem C9_witness :
    validate (RawRequest.mk none none none none)
        = validate (RawRequest.mk none none (some true) none)
    ∧ promoCond ∈ conditions (ItemSearchRequest.mk none none true) :=
  ⟨C9_on_sale_default_true.1 (RawRequest.mk none none none none) rfl,
   (C9_on_sale_default_true.2 (ItemSearchRequest.mk none none true)).mpr rfl⟩

/-- C6 counterexample: the claim puts the full-text clause in the WHERE
AND-join exactly when the description filter is set, but the source tests
Python truthiness, so the request whose description is set to the empty
string gets a query WITHOUT the full-text clause: the built query differs
from the claimed shape. -/
theorem C6_counterexample_empty_description :
    (ItemSearchRequest.mk none (some "") true).description.isSome = true
    ∧ buildQuery (ItemSearchRequest.mk none (some "") true)
        ≠ specQueryClaimed (ItemSearchRequest.mk none (some "") true) :=
  ⟨rfl, by decide⟩

/-- C6 amended: for every request the built query is the base SELECT,
then WHERE plus the AND-join of exactly the clauses of the set filters in
source order (sale clause iff on_sale, category clause iff category set,
full-text clause iff description set to a NON-EMPTY string; the request
has no stock-level filter and no stock-level clause exists), then the
fixed descending-discount sort and the row cap; no WHERE appears when no
clause is present. -/
theorem C6_amended_query_shape (req : ItemSearchRequest) :
    buildQuery req = specQuery req := by
  unfold buildQuery specQuery
  by_cases hc : conditions req = []
  · rw [hc]
    rfl
  · have hne : (String.intercalate " AND " (conditions req)).isEmpty = false := by
      rcases hl : conditions req with _ | ⟨a, l⟩
      · exact absurd hl hc
      · have ha : a ≠ "" :=
          conditions_mem_ne_empty req a (by rw [hl]; exact List.mem_cons_self a l)
        have hni := intercalate_cons_ne_empty a l ha
        cases he : (String.intercalate " AND " (a :: l)).isEmpty
        · rfl
        · exact absurd ((String.isEmpty_iff _).mp he) hni
    rw [hne, if_neg Bool.false_ne_true, if_neg hc]

/-- C10 counterexample: two requests that differ only in their
description text (empty versus milk) yield DIFFERENT SQL strings, because
the empty text drops the full-text clause; and the category enumeration
has 43 members, not 44. -/
theorem C10_counterexample_interpolation :
    buildQuery (ItemSearchRequest.mk none (some "") true)
        ≠ buildQuery (ItemSearchRequest.mk none (some "milk") true)
    ∧ Category.all.length ≠ 44 :=
  ⟨by decide, by decide⟩

/-- C10 amended: the SQL string depends on the request only through
on_sale, the category (a value of the 43-member enumeration), and the
truthiness of the description; in particular two requests that differ
only in their non-empty description text produce the same SQL string, the
description reaching the store only as the bound parameter. -/
theorem C10_amended_interpolation :
    (∀ req₁ req₂ : ItemSearchRequest, req₁.on_sale = req₂.on_sale →
      req₁.category = req₂.category →
      descTruthy req₁.description = descTruthy req₂.description →
      buildQuery req₁ = buildQuery req₂)
    ∧ Category.all.length = 43 := by
  constructor
  · intro r1 r2 h1 h2 h3
    have hcond : conditions r1 = conditions r2 := by
      unfold conditions
      rw [h1, h2, h3]
    unfold buildQuery
    rw [hcond]
  · rfl

/-- Closed instance of the C10 amended theorem: the requests for milk and
for tea produce the same SQL string. -/
theorem C10_witness :
    buildQuery (ItemSearchRequest.mk none (some "milk") true)
        = buildQuery (ItemSearchRequest.mk none (some "tea") true)
    ∧ Category.all.length = 43 :=
  ⟨C10_amended_interpolation.1 _ _ rfl rfl rfl, C10_amended_interpolation.2⟩

end GroceryRestApi
